import Mathlib

/-!
# Verification of the wal-g prometheus exporter's reconciliation core

Shallow embedding of the two exporters (`exporter.py` for PostgreSQL and
`mysql/mysql_exporter.py` for MySQL) of the wal-g-prometheus-exporter
repository, together with theorems settling the frozen claims about the
backup-inventory reconciler, the status cache, the exception flags, the
position arithmetic, the timestamp normalizer, the size formatter and the
tmp-binlog cleanup.

Machine integers do not occur (Python ints are unbounded); times are
modelled exactly (a `datetime` is abstracted to its POSIX timestamp,
an integer number of seconds, since only ordering, equality and string
identity of times matter to the claims); the floating-point arithmetic of
`convert_size` is modelled exactly over the integers (hundredths), which
agrees with the CPython double computation at every input appearing in
the theorems; fallible Python code is modelled with `Option`/`Except`
where a raised exception is an `error` value.
-/

/-- Python exception kinds raised by the code paths modelled here. -/
inductive PyErr where
  | valueError
  | keyError
  | nameError
  | calledProcessError
  | fileNotFoundError
  | dbError
deriving DecidableEq, Repr

instance {ε α : Type} [DecidableEq ε] [DecidableEq α] : DecidableEq (Except ε α) := fun a b =>
  match a, b with
  | .error e, .error e' =>
    if h : e = e' then .isTrue (by rw [h]) else .isFalse (by intro hc; cases hc; exact h rfl)
  | .ok v, .ok v' =>
    if h : v = v' then .isTrue (by rw [h]) else .isFalse (by intro hc; cases hc; exact h rfl)
  | .error _, .ok _ => .isFalse (by intro hc; cases hc)
  | .ok _, .error _ => .isFalse (by intro hc; cases hc)

/-! ## Metrics registry

Model of the `prometheus_client` labelled-`Gauge` contract used by both
exporters, as an insertion-ordered association list from label-value
tuples to gauge values:

* `labels(*lv).set(v)` creates the child series on first use and updates
  it afterwards (never raises);
* `remove(*lv)` raises `ValueError` when the number of label values
  differs from the number of declared label names, and `KeyError` when no
  child with exactly that label tuple exists.
-/

abbrev Registry := List (List String × Int)

/-- `gauge.labels(*lv).set(v)`: create-or-update the series keyed by `lv`. -/
def regSet (lv : List String) (v : Int) (r : Registry) : Registry :=
  if r.any (fun p => decide (p.1 = lv)) then
    r.map (fun p => if p.1 = lv then (lv, v) else p)
  else
    r ++ [(lv, v)]

/-- `gauge.remove(*lv)` for a gauge declared with `n` label names:
`ValueError` on a label-count mismatch, `KeyError` when the exact tuple
was never created, otherwise the series is deleted. -/
def regRemove (n : Nat) (lv : List String) (r : Registry) : Except PyErr Registry :=
  if lv.length ≠ n then .error .valueError
  else if r.all (fun p => decide (p.1 ≠ lv)) then .error .keyError
  else .ok (r.filter (fun p => decide (p.1 ≠ lv)))

/-! ## Pure helpers from `exporter.py` -/

/-- Value of one hexadecimal digit, as accepted by Python `int(s, 16)`. -/
def hexDigitVal (c : Char) : Option Nat :=
  if '0' ≤ c ∧ c ≤ '9' then some (c.toNat - 48)
  else if 'a' ≤ c ∧ c ≤ 'f' then some (c.toNat - 87)
  else if 'A' ≤ c ∧ c ≤ 'F' then some (c.toNat - 55)
  else none

/-- Python `int(s, 16)` on a plain digit string: `none` models the
`ValueError` raised on an empty or non-hexadecimal string. -/
def hexVal (s : List Char) : Option Nat :=
  match s with
  | [] => none
  | _ =>
    s.foldl (fun acc c =>
      match acc, hexDigitVal c with
      | some a, some d => some (a * 16 + d)
      | _, _ => none) (some 0)

/-- `wal_diff(a, b)` from `exporter.py`: compares the first 8 characters
(timeline); on mismatch returns `-1` before any hex parsing; otherwise
parses characters 8..16 and 16..24 of each name and returns
`(hi * 0x100 + lo) - (hi' * 0x100 + lo')`.  `none` models the
`ValueError` Python would raise on non-hex segments. -/
def wal_diff (a b : String) : Option Int :=
  let la := a.toList
  let lb := b.toList
  let timeline_a := la.take 8
  let timeline_b := lb.take 8
  if timeline_a ≠ timeline_b then some (-1)
  else
    match hexVal ((la.drop 8).take 8), hexVal ((la.drop 16).take 8),
          hexVal ((lb.drop 8).take 8), hexVal ((lb.drop 16).take 8) with
    | some ah, some al, some bh, some bl =>
        some (((ah * 256 + al : Nat) : Int) - ((bh * 256 + bl : Nat) : Int))
    | _, _, _, _ => none

/-- Fuel-driven floor logarithm base 1024 (fuel `n` suffices for input `n`). -/
def intLog1024Aux : Nat → Nat → Nat
  | 0, _ => 0
  | fuel + 1, n => if n < 1024 then 0 else intLog1024Aux fuel (n / 1024) + 1

/-- `int(math.floor(math.log(n, 1024)))` for `n ≥ 1`, modelled exactly:
the floor of the real base-1024 logarithm.  (CPython computes this with
double-precision floats; at every input appearing in this development the
float computation agrees with the exact value, e.g.
`math.log(1073741824, 1024) == 3.0`.) -/
def intLog1024 (n : Nat) : Nat := intLog1024Aux n n

/-- Round-half-even of the exact quotient `num / den` (with `den > 0`),
the rounding used by Python `round`. -/
def roundHalfEvenDiv (num den : Nat) : Nat :=
  let f := num / den
  let r := num % den
  if 2 * r < den then f
  else if den < 2 * r then f + 1
  else if f % 2 = 0 then f else f + 1

/-- Python `str()` of the nonnegative two-decimal value `k / 100`
(`k` in hundredths): the shortest decimal rendering, always keeping at
least one digit after the point (`str(1.0) = "1.0"`, `str(1.5) = "1.5"`,
`str(1.05) = "1.05"`). -/
def floatRepr2 (k : Nat) : String :=
  let ip := k / 100
  let r := k % 100
  if r = 0 then toString ip ++ ".0"
  else if r % 10 = 0 then toString ip ++ "." ++ toString (r / 10)
  else if r < 10 then toString ip ++ ".0" ++ toString r
  else toString ip ++ "." ++ toString r

/-- The unit-name table of `convert_size`. -/
def size_name : List String := ["B", "KB", "MB", "GB", "TB", "PB", "EB", "ZB", "YB"]

/-- `convert_size(size_bytes)` from `exporter.py`: `"0B"` for zero,
otherwise `i = int(math.floor(math.log(n, 1024)))`, `p = math.pow(1024, i)`,
`s = round(n / p, 2)` and the rendering `"%s %s" % (s, size_name[i])`.
The float pipeline is modelled exactly: `s` is computed in hundredths as
the half-even rounding of `n * 100 / 1024 ^ i`, which agrees with the
CPython double computation at every input appearing in the theorems. -/
def convert_size (size_bytes : Nat) : String :=
  if size_bytes = 0 then "0B"
  else
    let i := intLog1024 size_bytes
    let p := 1024 ^ i
    let k := roundHalfEvenDiv (size_bytes * 100) p
    floatRepr2 k ++ " " ++ size_name.getD i ""

/-! ## The combined exception gauge of `exporter.py`

The gauge callback is the Python expression

`1 if self.basebackup_exception else 0 + 2 if self.xlog_exception else 0`

Python's conditional expression is right-associative and binds looser than
`+`, so this parses as
`1 if basebackup_exception else ((0 + 2) if xlog_exception else 0)`,
which is what is translated here. -/
def walg_exception_value (basebackup_exception xlog_exception : Bool) : Nat :=
  if basebackup_exception then 1
  else if xlog_exception then 0 + 2 else 0

/-! ## The PostgreSQL exporter (`exporter.py`)

`Exporter.update_basebackup` embedded over an abstract poll outcome.
A backup record is taken after JSON decoding and `format_date`
normalization succeeded (the fields the function reads); a `datetime` is
abstracted to its integer POSIX timestamp, and the label string produced
from it by the metrics client is abstracted to a canonical injective
rendering — only equality of label strings matters to the claims. -/

structure PgBB where
  backup_name : String
  wal_file_name : String
  start_lsn : String
  finish_lsn : String
  is_permanent : Bool
  uncompressed_size : Nat
  compressed_size : Nat
  start_time : Int
  finish_time : Int
deriving DecidableEq, Repr

/-- `str()` of a Python bool, as the metrics client stringifies labels. -/
def pyBoolStr (b : Bool) : String := if b then "True" else "False"

/-- Canonical injective rendering of a timestamp label
(abstraction of `str(datetime)`). -/
def timeLabel (t : Int) : String := toString t

/-- The 8 label values passed to `self.basebackup.labels(...)` at series
creation (`exporter.py` lines 249-256). -/
def pgCreateLabels (bb : PgBB) : List String :=
  [bb.wal_file_name, bb.start_lsn, bb.finish_lsn, pyBoolStr bb.is_permanent,
   convert_size bb.uncompressed_size, convert_size bb.compressed_size,
   timeLabel bb.start_time, timeLabel bb.finish_time]

/-- The 2 label values passed to `self.basebackup.remove(...)` at series
retraction (`exporter.py` lines 243-244). -/
def pgRemoveLabels (bb : PgBB) : List String :=
  [bb.wal_file_name, bb.start_lsn]

/-- Outcome of the `wal-g backup-list --detail --json` poll:
`calledProcessError` is a non-zero exit of the subprocess (the only
exception `update_basebackup` catches), `fileNotFound` a missing wal-g
binary, and `ok bbs` a successful run whose output decoded and
normalized to `bbs` (empty stdout decodes to `[]`). -/
inductive PgPoll where
  | calledProcessError
  | fileNotFound
  | ok (bbs : List PgBB)

/-- Sort order used by `new_bbs.sort(key=lambda bb: bb['start_time'])`. -/
def pgLe (a b : PgBB) : Prop := a.start_time ≤ b.start_time

instance : DecidableRel pgLe := fun a b => inferInstanceAs (Decidable (a.start_time ≤ b.start_time))

instance : IsTotal PgBB pgLe := ⟨fun a b => Int.le_total a.start_time b.start_time⟩

instance : IsTrans PgBB pgLe := ⟨fun _ _ _ h h' => le_trans h h'⟩

/-- The gauge registry of `walg_basebackup` plus the two pieces of state
`update_basebackup` touches. -/
structure PgState where
  bbs : List PgBB
  registry : Registry
  basebackup_exception : Bool
deriving DecidableEq, Repr

/-- The loop `for bb in self.bbs: if bb['backup_name'] not in new_bbs_name:
self.basebackup.remove(...)`.  On a raised exception the registry mutations
performed so far persist and the exception propagates. -/
def pgRemoveLoop (olds : List PgBB) (newNames : List String) (reg : Registry) :
    Registry × Option PyErr :=
  match olds with
  | [] => (reg, none)
  | bb :: rest =>
    if bb.backup_name ∈ newNames then pgRemoveLoop rest newNames reg
    else
      match regRemove 8 (pgRemoveLabels bb) reg with
      | .ok reg2 => pgRemoveLoop rest newNames reg2
      | .error e => (reg, some e)

/-- The loop `for bb in new_bbs: if bb['backup_name'] not in old_bbs_name:
self.basebackup.labels(...).set(bb['start_time'].timestamp())`. -/
def pgAddLoop (news : List PgBB) (oldNames : List String) (reg : Registry) : Registry :=
  match news with
  | [] => reg
  | bb :: rest =>
    if bb.backup_name ∈ oldNames then pgAddLoop rest oldNames reg
    else pgAddLoop rest oldNames (regSet (pgCreateLabels bb) bb.start_time reg)

/-- `Exporter.update_basebackup` (`exporter.py` lines 211-273).  Returns
the state after the call together with `some e` when an uncaught Python
exception `e` propagates out of the method (only
`subprocess.CalledProcessError` is caught, by the handler that sets
`basebackup_exception`).  The source updates `self.bbs` only when the new
sorted list is nonempty; on the empty successful poll it merely logs. -/
def pg_update_basebackup (st : PgState) (poll : PgPoll) : PgState × Option PyErr :=
  match poll with
  | .calledProcessError => ({ st with basebackup_exception := true }, none)
  | .fileNotFound => (st, some .fileNotFoundError)
  | .ok bbs0 =>
    let new_bbs := List.insertionSort pgLe bbs0
    let new_bbs_name := new_bbs.map (fun bb => bb.backup_name)
    let old_bbs_name := st.bbs.map (fun bb => bb.backup_name)
    match pgRemoveLoop st.bbs new_bbs_name st.registry with
    | (reg, some e) => ({ st with registry := reg }, some e)
    | (reg, none) =>
      let reg2 := pgAddLoop new_bbs old_bbs_name reg
      if new_bbs.length = 0 then
        ({ st with registry := reg2, basebackup_exception := false }, none)
      else
        ({ bbs := new_bbs, registry := reg2, basebackup_exception := false }, none)

/-! ## The status query and its TTL cache (`exporter.py` lines 275-303) -/

/-- The row fetched from `pg_stat_archiver` (the fields the exporter
reads; a `datetime` abstracted to its integer timestamp). -/
structure ArchiveStatus where
  last_archived_wal : String
  last_archived_time : Int
deriving DecidableEq, Repr

/-- The memoization state: `self.last_archive_check` (a timestamp or
`None`) and `self.archive_status` (initially `None`). -/
structure CacheState where
  last_archive_check : Option Int
  archive_status : Option ArchiveStatus
deriving DecidableEq, Repr

/-- The refresh condition of `Exporter.last_archive_status`:
`self.last_archive_check is None or now - self.last_archive_check > 1`.
Exactly when this holds does the method issue the underlying
`_last_archive_status()` database query. -/
def cacheExpired (st : CacheState) (now : Int) : Bool :=
  match st.last_archive_check with
  | none => true
  | some t => decide (now - t > 1)

/-- `Exporter.last_archive_status` (`exporter.py` lines 275-281): when the
cache is expired, issue the query (`query` is the outcome the database
would deliver now); a query failure propagates, leaving the memoized
state unchanged; otherwise the memoized snapshot is returned without any
query.  The two `datetime.datetime.now()` calls inside one invocation are
modelled as the single instant `now`. -/
def last_archive_status (st : CacheState) (now : Int)
    (query : Except PyErr ArchiveStatus) :
    Except PyErr (Option ArchiveStatus × CacheState) :=
  if cacheExpired st now then
    match query with
    | .error e => .error e
    | .ok s => .ok (some s, ⟨some now, some s⟩)
  else
    .ok (st.archive_status, st)

/-! ## `Exporter.update_wal_status` and the main poll loop -/

/-- One entry of `json.loads(res.stdout)["integrity"]["details"]`. -/
structure WalTimeline where
  timeline_id : Nat
  status : String
  segments_count : Nat
deriving DecidableEq, Repr

/-- Outcome of the `wal-g wal-verify integrity --json` subprocess:
non-zero exit, empty stdout, or a decoded integrity report. -/
inductive WsPoll where
  | calledProcessError
  | okEmpty
  | ok (details : List WalTimeline) (integrity_status : String)

/-- Sort order of `wal_archive_list.sort(key=...['timeline_id'])`. -/
def tlLe (a b : WalTimeline) : Prop := a.timeline_id ≤ b.timeline_id

instance : DecidableRel tlLe := fun a b => inferInstanceAs (Decidable (a.timeline_id ≤ b.timeline_id))

/-- The gauge values `update_wal_status` publishes in one successful run:
`walg_wal_integrity_status{OK}/{FAILURE}` (unset on the empty branch),
`walg_wal_archive_count`, `walg_wal_archive_missing_count` and
`walg_last_upload{wal}` (the latter three unset or partially unset on the
empty branch). -/
structure WalStatusGauges where
  integrity : Option (Int × Int)
  archive_count : Int
  missing_count : Option Int
  wal_last_upload : Option Int
deriving DecidableEq, Repr

/-- `Exporter.update_wal_status` (`exporter.py` lines 152-209).  The
`except subprocess.CalledProcessError` handler only logs; execution then
falls through to `res.stdout.decode(...)` with the local `res` never
assigned, so the method raises `UnboundLocalError` (a `NameError`) —
modelled as `.error .nameError`.  On the nonempty branch the
`_last_archive_status()` database query runs before any gauge is set and
its failure propagates uncaught. -/
def pg_update_wal_status (poll : WsPoll) (dbQuery : Except PyErr ArchiveStatus) :
    Except PyErr WalStatusGauges :=
  match poll with
  | .calledProcessError => .error .nameError
  | .okEmpty => .ok ⟨none, 0, none, none⟩
  | .ok details istatus =>
    let wal_archive_list := List.insertionSort tlLe details
    if wal_archive_list.length > 0 then
      let found := (wal_archive_list.filter
        (fun t => decide (t.status = "FOUND"))).foldl (fun a t => a + (t.segments_count : Int)) 0
      let missing := (wal_archive_list.filter
        (fun t => decide (t.status ≠ "FOUND"))).foldl (fun a t => a + (t.segments_count : Int)) 0
      match dbQuery with
      | .error e => .error e
      | .ok archive_status =>
        let integ := if istatus = "OK" then some ((1 : Int), (0 : Int)) else some (0, 1)
        .ok ⟨integ, found, some missing, some archive_status.last_archived_time⟩
    else
      .ok ⟨none, 0, none, none⟩

/-- One iteration of the `while True` main loop (`exporter.py` lines
382-386): `update_basebackup()` then `update_wal_status()`, with no
exception handler around either call, so any exception either method
raises propagates and terminates the process — modelled as the `.error`
result of the cycle. -/
def pg_cycle (st : PgState) (bbPoll : PgPoll) (wsPoll : WsPoll)
    (dbQuery : Except PyErr ArchiveStatus) :
    Except PyErr (PgState × WalStatusGauges) :=
  match pg_update_basebackup st bbPoll with
  | (_, some e) => .error e
  | (st2, none) =>
    match pg_update_wal_status wsPoll dbQuery with
    | .error e => .error e
    | .ok g => .ok (st2, g)

/-! ## The MySQL exporter (`mysql/mysql_exporter.py`)

`MySQLExporter.update_basebackups` embedded over an abstract poll
outcome.  A record holds the fields the method reads after
`parse_backup_dates` ran (times as integer timestamps, `none` for an
unparsed time); the fallback plain-text parse also lands in the same
record shape. -/

structure MyBB where
  backup_name : String
  start_time : Option Int
  finish_time : Option Int
  uncompressed_size : Nat
  compressed_size : Nat
deriving DecidableEq, Repr

/-- The time label strings built at series creation:
`st.isoformat().replace('+00:00','Z')` when the time parsed, `''`
otherwise, abstracted to a canonical injective nonempty rendering of the
timestamp. -/
def myTimeLabel : Option Int → String
  | none => ""
  | some t => timeLabel t

/-- The 5 label values of `self.basebackup.labels(...)` at creation
(`mysql_exporter.py` lines 271-276). -/
def myCreateLabels (bb : MyBB) : List String :=
  [bb.backup_name, toString bb.uncompressed_size, toString bb.compressed_size,
   myTimeLabel bb.start_time, myTimeLabel bb.finish_time]

/-- The 5 label values of `self.basebackup.remove(...)` at retraction
(`mysql_exporter.py` lines 258-261): the two time labels are always the
empty string. -/
def myRemoveLabels (bb : MyBB) : List String :=
  [bb.backup_name, toString bb.uncompressed_size, toString bb.compressed_size, "", ""]

/-- The gauge value set at creation:
`(ft or st or datetime.fromtimestamp(0)).timestamp()`. -/
def myValue (bb : MyBB) : Int :=
  match bb.finish_time with
  | some t => t
  | none =>
    match bb.start_time with
    | some t => t
    | none => 0

/-- Sort key of `new_bbs.sort(key=lambda x: x.get('start_time') or epoch)`:
an unparsed time sorts as the epoch. -/
def myKey (bb : MyBB) : Int := bb.start_time.getD 0

/-- Sort order of the MySQL inventory. -/
def myLe (a b : MyBB) : Prop := myKey a ≤ myKey b

instance : DecidableRel myLe := fun a b => inferInstanceAs (Decidable (myKey a ≤ myKey b))

instance : IsTotal MyBB myLe := ⟨fun a b => Int.le_total (myKey a) (myKey b)⟩

instance : IsTrans MyBB myLe := ⟨fun _ _ _ h h' => le_trans h h'⟩

/-- Outcome of the MySQL backup-list poll: `ok bbs` when either the JSON
attempt or the plain-text fallback produced a record list (lines 197-235),
`fail` when the fallback also failed, the wal-g binary was missing, or an
unexpected exception occurred (lines 236-250). -/
inductive MyPoll where
  | ok (bbs : List MyBB)
  | fail

structure MyState where
  bbs : List MyBB
  registry : Registry
  basebackup_exception : Bool
deriving DecidableEq, Repr

/-- The retraction loop of `update_basebackups` (lines 255-263): `remove`
is wrapped in `try: ... except Exception: pass`, so a `KeyError` (label
tuple never created) leaves the registry unchanged and the loop continues. -/
def myRemoveLoop (olds : List MyBB) (newNames : List String) (reg : Registry) : Registry :=
  match olds with
  | [] => reg
  | bb :: rest =>
    if bb.backup_name ∈ newNames then myRemoveLoop rest newNames reg
    else
      match regRemove 5 (myRemoveLabels bb) reg with
      | .ok reg2 => myRemoveLoop rest newNames reg2
      | .error _ => myRemoveLoop rest newNames reg

/-- The creation loop of `update_basebackups` (lines 265-277), which runs
over the still-unsorted incoming list. -/
def myAddLoop (news : List MyBB) (existingNames : List String) (reg : Registry) : Registry :=
  match news with
  | [] => reg
  | bb :: rest =>
    if bb.backup_name ∈ existingNames then myAddLoop rest existingNames reg
    else myAddLoop rest existingNames (regSet (myCreateLabels bb) (myValue bb) reg)

/-- `MySQLExporter.update_basebackups` (`mysql_exporter.py` lines
197-285).  On a hard poll failure the error handlers set
`basebackup_exception = True` and assign `self.bbs = []` before
returning, leaving the registry untouched.  On success the retraction and
creation loops run against the unsorted incoming list, which is then
sorted in place and installed wholesale, and the flag is cleared. -/
def my_update_basebackups (st : MyState) (poll : MyPoll) : MyState :=
  match poll with
  | .fail => ⟨[], st.registry, true⟩
  | .ok new_bbs0 =>
    let existing_names := st.bbs.map (fun bb => bb.backup_name)
    let new_names := new_bbs0.map (fun bb => bb.backup_name)
    let reg := myRemoveLoop st.bbs new_names st.registry
    let reg2 := myAddLoop new_bbs0 existing_names reg
    ⟨List.insertionSort myLe new_bbs0, reg2, false⟩

/-! ## The tmp-binlog cleanup (`mysql_exporter.py` lines 92-114, 326-381) -/

/-- ASCII decimal digit, the model of Python's `\d`/`str.isdigit` used
here (only ASCII file names and date strings appear in the theorems). -/
def pyIsDigit (c : Char) : Bool := decide ('0' ≤ c ∧ c ≤ '9')

/-- Strip a literal leading character sequence, returning the remainder. -/
def dropLit : List Char → List Char → Option (List Char)
  | [], s => some s
  | _ :: _, [] => none
  | p :: ps, c :: cs => if p = c then dropLit ps cs else none

/-- Whether `name` is of the exact shape `(mysql-bin|binlog).<digits>`
with at least one digit and nothing else. -/
def cleanupPatExact (name : List Char) : Bool :=
  match dropLit "mysql-bin.".toList name with
  | some rest => decide (rest ≠ []) && rest.all pyIsDigit
  | none =>
    match dropLit "binlog.".toList name with
    | some rest => decide (rest ≠ []) && rest.all pyIsDigit
    | none => false

/-- Python `re.match` of `^(mysql-bin|binlog)\.\d+$` against `name`: in
Python's `re`, `$` (without `re.MULTILINE`) also matches just before one
newline at the very end of the string, so a name consisting of the exact
shape plus a single trailing `'\n'` matches as well. -/
def cleanupPatMatch (name : List Char) : Bool :=
  cleanupPatExact name ||
    (match name.getLast? with
     | some '\n' => cleanupPatExact name.dropLast
     | _ => false)

/-- Python `name.startswith('mysql-bin.') or name.startswith('binlog.')`,
the pre-filter of the cleanup loop (line 342). -/
def cleanupHasStub (name : List Char) : Bool :=
  (dropLit "mysql-bin.".toList name).isSome || (dropLit "binlog.".toList name).isSome

/-- One directory entry seen by the cleanup loop: its name, the result of
`os.stat` (`none` models the `FileNotFoundError` race, handled by
`continue`) and whether `os.remove` would succeed (`false` models an OS
error, caught and skipped). -/
structure TmpEntry where
  name : String
  size : Option Nat
  removable : Bool
deriving DecidableEq, Repr

/-- The per-entry decision of the cleanup loop (lines 341-370): prefix
pre-filter, `os.stat`, exact-pattern check, size-threshold check
(`st.st_size > cleanup_max_size` skips), then `os.remove`. -/
def cleanupDeletes (maxSize : Nat) (e : TmpEntry) : Bool :=
  cleanupHasStub e.name.toList &&
    (match e.size with
     | none => false
     | some sz => cleanupPatMatch e.name.toList && decide (sz ≤ maxSize) && e.removable)

/-- The files the cleanup block removes from `tmp_binlog_dir` in one run:
the entries of `os.listdir(tmp_binlog_dir)` passing every check, or none
at all when the cleanup is disabled.  Per-entry errors are skipped and
the whole block is additionally wrapped in `try: ... except Exception`,
so no cleanup error propagates into the poll cycle (the function is
total). -/
def cleanupRemoved (entries : List TmpEntry) (maxSize : Nat) (enabled : Bool) : List TmpEntry :=
  if enabled then entries.filter (cleanupDeletes maxSize) else []

/-- `os.path.isabs` for POSIX paths. -/
def pyIsAbs (s : String) : Bool :=
  match s.toList with
  | '/' :: _ => true
  | _ => false

/-- Python `s.rstrip('/')`. -/
def pyRstripSlash (s : String) : String :=
  ⟨(s.toList.reverse.dropWhile (fun c => c = '/')).reverse⟩

/-- The startup validation of `tmp_binlog_dir` (`mysql_exporter.py` lines
102-107): a non-absolute path and a path whose right-stripped form is
`''` or `'/'` fall back to `'/tmp'`; everything else is accepted
verbatim.  (The later directory-creation step, lines 108-114, is I/O and
can only substitute `'/tmp'` as well; it is not modelled.) -/
def validate_tmp_binlog_dir (cfg : String) : String :=
  let d := if pyIsAbs cfg then cfg else "/tmp"
  if pyRstripSlash d = "" ∨ pyRstripSlash d = "/" then "/tmp" else d

/-- Modelled from POSIX path resolution semantics (external to the
repository): splitting an absolute path on `/` and processing `.` and
`..` components, the path denotes the filesystem root exactly when no
components remain.  Symbolic links are not modelled. -/
def posixResolvesToRoot (s : String) : Bool :=
  let comps := s.toList.foldl
    (fun (acc : List (List Char) × List Char) c =>
      if c = '/' then (acc.1 ++ [acc.2.reverse], []) else (acc.1, c :: acc.2))
    ([], [])
  let parts := comps.1 ++ [comps.2.reverse]
  let stack := parts.foldl
    (fun (st : List (List Char)) p =>
      if p = [] ∨ p = ['.'] then st
      else if p = ['.', '.'] then st.dropLast
      else st ++ [p]) []
  decide (stack = [])

/-! ## Timestamp normalization (`parse_backup_dates`, `parse_date`)

`datetime.datetime.strptime` is modelled for exactly the zero-padded
ISO-8601 parses the exporters perform (formats `%Y-%m-%dT%H:%M:%S` and
`%Y-%m-%dT%H:%M:%S.%f`); any other format string is unmodelled and
treated as a parse failure — the theorems instantiate only modelled
formats, where the model agrees with CPython. -/

structure PyDateTime where
  year : Nat
  month : Nat
  day : Nat
  hour : Nat
  minute : Nat
  second : Nat
  microsecond : Nat
deriving DecidableEq, Repr

def isLeapYear (y : Nat) : Bool := y % 4 = 0 && (y % 100 ≠ 0 || y % 400 = 0)

def daysInMonth (y m : Nat) : Nat :=
  if m = 2 then (if isLeapYear y then 29 else 28)
  else if m = 4 ∨ m = 6 ∨ m = 9 ∨ m = 11 then 30
  else 31

/-- Read exactly `k` ASCII digits, returning their value and the rest. -/
def takeDigitsAux : Nat → Nat → List Char → Option (Nat × List Char)
  | 0, acc, s => some (acc, s)
  | k + 1, acc, s =>
    match s with
    | c :: cs => if pyIsDigit c then takeDigitsAux k (acc * 10 + (c.toNat - 48)) cs else none
    | [] => none

def takeDigits (k : Nat) (s : List Char) : Option (Nat × List Char) := takeDigitsAux k 0 s

def expectChar (c : Char) : List Char → Option (List Char)
  | x :: xs => if x = c then some xs else none
  | [] => none

/-- Parse `YYYY-MM-DDTHH:MM:SS` with the calendar validation `strptime`
and the `datetime` constructor perform, returning the remainder. -/
def parseIsoCore (s : List Char) : Option (PyDateTime × List Char) := do
  let (y, s) ← takeDigits 4 s
  let s ← expectChar '-' s
  let (mo, s) ← takeDigits 2 s
  let s ← expectChar '-' s
  let (d, s) ← takeDigits 2 s
  let s ← expectChar 'T' s
  let (h, s) ← takeDigits 2 s
  let s ← expectChar ':' s
  let (mi, s) ← takeDigits 2 s
  let s ← expectChar ':' s
  let (sec, s) ← takeDigits 2 s
  if 1 ≤ y ∧ y ≤ 9999 ∧ 1 ≤ mo ∧ mo ≤ 12 ∧ 1 ≤ d ∧ d ≤ daysInMonth y mo ∧
      h ≤ 23 ∧ mi ≤ 59 ∧ sec ≤ 59 then
    some (⟨y, mo, d, h, mi, sec, 0⟩, s)
  else none

/-- `strptime(s, "%Y-%m-%dT%H:%M:%S")`. -/
def strptimeNoFrac (s : String) : Option PyDateTime := do
  let (dt, rest) ← parseIsoCore s.toList
  if rest = [] then some dt else none

/-- `strptime(s, "%Y-%m-%dT%H:%M:%S.%f")`: `%f` is 1 to 6 digits,
interpreted as microseconds right-padded with zeros. -/
def strptimeFrac (s : String) : Option PyDateTime := do
  let (dt, rest) ← parseIsoCore s.toList
  let ds ← expectChar '.' rest
  if ds ≠ [] ∧ ds.length ≤ 6 ∧ ds.all pyIsDigit then
    let v := ds.foldl (fun a c => a * 10 + (c.toNat - 48)) 0
    some { dt with microsecond := v * 10 ^ (6 - ds.length) }
  else none

/-- `datetime.datetime.strptime(s, fmt)` restricted to the format strings
the exporters use. -/
def strptimeModel (s fmt : String) : Option PyDateTime :=
  if fmt = "%Y-%m-%dT%H:%M:%S.%f" then strptimeFrac s
  else if fmt = "%Y-%m-%dT%H:%M:%S" then strptimeNoFrac s
  else none

/-- Python `str.replace` (all non-overlapping occurrences, left to right),
with the input length as recursion fuel. -/
def replaceAux (pat repl : List Char) : Nat → List Char → List Char
  | 0, s => s
  | fuel + 1, s =>
    match dropLit pat s with
    | some rest => repl ++ replaceAux pat repl fuel rest
    | none =>
      match s with
      | [] => []
      | c :: cs => c :: replaceAux pat repl fuel cs

def pyReplace (s pat repl : String) : String :=
  ⟨replaceAux pat.toList repl.toList s.toList.length s.toList⟩

/-- The inner `_parse` of `parse_backup_dates` (`mysql_exporter.py` lines
148-165): falsy input gives `None`; a trailing `Z` is stripped; when a
dot is present the string is split at the first dot, the fractional part
is reduced to its digits, right-padded with zeros and truncated to six,
and the `%f` format is used, otherwise the plain format; a parse failure
yields `None` instead of an exception. -/
def mysql_parse_ts : Option String → Option PyDateTime
  | none => none
  | some v =>
    if v = "" then none
    else
      let l := v.toList
      let l := if l.getLast? = some 'Z' then l.dropLast else l
      if l.contains '.' then
        let main := l.takeWhile (fun c => c ≠ '.')
        let fracRaw := (l.dropWhile (fun c => c ≠ '.')).drop 1
        let frac := ((fracRaw.filter pyIsDigit) ++ "000000".toList).take 6
        strptimeFrac ⟨main ++ '.' :: frac⟩
      else strptimeNoFrac ⟨l⟩

/-- Python's `a or b or ...` over optional strings: the first value that
is neither `None` nor the empty string (all-falsy chains end in a falsy
value, which `_parse` maps to `None` just as this model's `none`). -/
def firstTruthy (l : List (Option String)) : Option String :=
  l.findSome? (fun o =>
    match o with
    | some s => if s = "" then none else some s
    | none => none)

/-- One raw record of `wal-g backup-list --detail --json` output, holding
the timestamp source fields `parse_backup_dates` reads. -/
structure RawMyBB where
  start_time : Option String
  start_local_time : Option String
  time : Option String
  modify_time : Option String
  finish_time : Option String
  stop_local_time : Option String
  stop_time : Option String
deriving DecidableEq, Repr

/-- `parse_backup_dates` (`mysql_exporter.py` lines 147-171): the start
candidates are `start_time`, `start_local_time`, `time`, `modify_time`
and the stop candidates `finish_time`, `stop_local_time`, `stop_time`,
`modify_time`, each chain picking the first truthy value, which `_parse`
then turns into a datetime or `None`. -/
def parse_backup_dates (bb : RawMyBB) : Option PyDateTime × Option PyDateTime :=
  (mysql_parse_ts (firstTruthy [bb.start_time, bb.start_local_time, bb.time, bb.modify_time]),
   mysql_parse_ts (firstTruthy [bb.finish_time, bb.stop_local_time, bb.stop_time, bb.modify_time]))

/-- `parse_date(date, fmt)` (`exporter.py` lines 58-64): replace `Z` by
`%z`, try `strptime`; on `ValueError` drop `.%f` from the format and try
once more; a second failure raises `ValueError` out of the function
(`.error .valueError`). -/
def parse_date (date fmt0 : String) : Except PyErr PyDateTime :=
  let fmt := pyReplace fmt0 "Z" "%z"
  match strptimeModel date fmt with
  | some d => .ok d
  | none =>
    match strptimeModel date (pyReplace fmt ".%f" "") with
    | some d => .ok d
    | none => .error .valueError

/-- The raw string fields of one PostgreSQL backup record that
`format_date` rewrites. -/
structure PgRawBB where
  time : String
  start_time : String
  finish_time : String
  date_fmt : String
deriving DecidableEq, Repr

/-- `format_date(bb)` (`exporter.py` lines 49-55): rewrites the three
time fields through `parse_date` with the record's (Z-fixed) format; any
`parse_date` failure propagates, aborting the whole
`list(map(format_date, ...))` of the batch. -/
def format_date (bb : PgRawBB) : Except PyErr (PyDateTime × PyDateTime × PyDateTime) := do
  let fmt := pyReplace bb.date_fmt "Z" "%z"
  let t ← parse_date bb.time fmt
  let st ← parse_date bb.start_time fmt
  let ft ← parse_date bb.finish_time fmt
  return (t, st, ft)

/-! ## Spec-side inventory order (for refinement comparison) -/

/-- Lexicographic order on character lists (for name tiebreaks). -/
def strLexLe : List Char → List Char → Bool
  | [], _ => true
  | _ :: _, [] => false
  | a :: as, b :: bs => if a = b then strLexLe as bs else decide (a < b)

/-- The inventory order the specification prescribes, written from the
spec's words (not from the source): ascending `start_time` with `name`
as tiebreak.  Used only to compare the source's sort against the claim. -/
def specInventoryLe (a b : PgBB) : Prop :=
  a.start_time < b.start_time ∨
    (a.start_time = b.start_time ∧ strLexLe a.backup_name.toList b.backup_name.toList = true)

instance : DecidableRel specInventoryLe := fun a b =>
  inferInstanceAs (Decidable (a.start_time < b.start_time ∨
    (a.start_time = b.start_time ∧ strLexLe a.backup_name.toList b.backup_name.toList = true)))

/-- Sorting by the spec's order, for comparison with the source's sort. -/
def specSortInventory (l : List PgBB) : List PgBB := List.insertionSort specInventoryLe l

/-! ## Theorems settling the claims -/

/-- C9: `convert_size` renders a byte count using binary 1024-based unit
steps rounded to 2 decimal places, choosing the largest unit in which the
value is at least 1, with 0 rendering as `"0B"` exactly:
`convert_size(0) == "0B"`, `convert_size(1536) == "1.5 KB"`,
`convert_size(1073741824) == "1.0 GB"`. -/
theorem claim_C9_convert_size :
    convert_size 0 = "0B" ∧ convert_size 1536 = "1.5 KB" ∧
      convert_size 1073741824 = "1.0 GB" := by
  refine ⟨by decide, by decide, by decide⟩

/-- C2 (code_bug evaluation): the `walg_exception` gauge callback, whose
own help string promises 1 for a basebackup error, 2 for an xlog error
and 3 for both, evaluates the Python expression
`1 if basebackup_exception else 0 + 2 if xlog_exception else 0`, which by
operator precedence yields `1` — not the documented `3` — when both flags
are set; the remaining three combinations match the documentation. -/
theorem claim_C2_code_eval :
    walg_exception_value true true = 1 ∧ walg_exception_value true true ≠ 3 ∧
      walg_exception_value false true = 2 ∧ walg_exception_value true false = 1 ∧
      walg_exception_value false false = 0 := by
  refine ⟨rfl, by decide, rfl, rfl, rfl⟩

/-- C7 (counterexample): the claim states that `wal_diff` returns, for
position pairs with differing timeline segments, a sentinel distinct from
every numeric difference producible by a same-timeline pair.  The code's
sentinel is `-1`, and a same-timeline pair whose second position is one
unit ahead of the first also yields exactly `-1`, so the sentinel is
indistinguishable from a valid distance. -/
theorem claim_C7_counterexample :
    wal_diff "000000010000000000000000" "000000010000000000000001" = some (-1) ∧
    "000000010000000000000000".toList.take 8 = "000000010000000000000001".toList.take 8 ∧
    wal_diff "000000010000000000000000" "000000020000000000000005" = some (-1) ∧
    "000000010000000000000000".toList.take 8 ≠ "000000020000000000000005".toList.take 8 := by
  refine ⟨by decide, by decide, by decide, by decide⟩

/-- C7 (amended): for every pair of position identifiers whose first 8
characters (timeline segments) differ, `wal_diff` returns `-1`; this
value is however not distinct from same-timeline numeric differences
(see the counterexample), so callers cannot distinguish the two cases. -/
theorem claim_C7_amended (a b : String)
    (h : a.toList.take 8 ≠ b.toList.take 8) :
    wal_diff a b = some (-1) := by
  unfold wal_diff
  simp only [if_pos h]

theorem claim_C7_amended_witness :
    wal_diff "000000010000000000000000" "000000020000000000000005" = some (-1) :=
  claim_C7_amended "000000010000000000000000" "000000020000000000000005" (by decide)

/-- C1 (counterexample): the claim states that a failed backup-list poll
leaves the in-memory inventory identical to its value before the call.
In the MySQL exporter the failure handlers assign `self.bbs = []`: from a
prior inventory holding one backup, a hard poll failure empties the
inventory. -/
theorem claim_C1_counterexample :
    my_update_basebackups ⟨[⟨"b0", some 1, some 2, 10, 5⟩], [], false⟩ MyPoll.fail
      = ⟨[], [], true⟩ ∧
    ([⟨"b0", some 1, some 2, 10, 5⟩] : List MyBB) ≠ [] := by
  refine ⟨rfl, by decide⟩

/-- C1 (amended): on a failed backup-list poll neither exporter touches
any published metric series, and both set the failure flag; the
PostgreSQL exporter (on the `CalledProcessError` it catches) additionally
leaves the in-memory inventory untouched, while the MySQL exporter resets
its in-memory inventory to the empty list. -/
theorem claim_C1_amended :
    (∀ st : PgState, pg_update_basebackup st PgPoll.calledProcessError
      = ({ st with basebackup_exception := true }, none)) ∧
    (∀ st : MyState, my_update_basebackups st MyPoll.fail
      = ⟨[], st.registry, true⟩) :=
  ⟨fun _ => rfl, fun _ => rfl⟩

/-- C4 (code_bug evaluation): reconciling an inventory `{A, B}` against
incoming `{B, C}`.  In the PostgreSQL exporter the retraction call passes
2 label values (`wal_file_name`, `start_lsn`) to a gauge declared with 8
label names — not the label values used at creation — so the metrics
client raises `ValueError`: A's series is never retracted, C's series is
never registered, and the exception propagates.  In the MySQL exporter
the retraction passes empty strings for the two time labels while the
series was created with rendered timestamps, so the silently-swallowed
`KeyError` leaves A's stale series in the registry (B untouched, C
registered once). -/
theorem claim_C4_code_eval :
    pgRemoveLabels ⟨"A", "walA", "lsnA", "flA", false, 0, 0, 1, 2⟩
      ≠ pgCreateLabels ⟨"A", "walA", "lsnA", "flA", false, 0, 0, 1, 2⟩ ∧
    (pg_update_basebackup
        ⟨[⟨"A", "walA", "lsnA", "flA", false, 0, 0, 1, 2⟩,
          ⟨"B", "walB", "lsnB", "flB", false, 0, 0, 3, 4⟩],
         [(pgCreateLabels ⟨"A", "walA", "lsnA", "flA", false, 0, 0, 1, 2⟩, 1),
          (pgCreateLabels ⟨"B", "walB", "lsnB", "flB", false, 0, 0, 3, 4⟩, 3)], false⟩
        (PgPoll.ok [⟨"B", "walB", "lsnB", "flB", false, 0, 0, 3, 4⟩,
                    ⟨"C", "walC", "lsnC", "flC", false, 0, 0, 5, 6⟩])).2
      = some PyErr.valueError ∧
    (pg_update_basebackup
        ⟨[⟨"A", "walA", "lsnA", "flA", false, 0, 0, 1, 2⟩,
          ⟨"B", "walB", "lsnB", "flB", false, 0, 0, 3, 4⟩],
         [(pgCreateLabels ⟨"A", "walA", "lsnA", "flA", false, 0, 0, 1, 2⟩, 1),
          (pgCreateLabels ⟨"B", "walB", "lsnB", "flB", false, 0, 0, 3, 4⟩, 3)], false⟩
        (PgPoll.ok [⟨"B", "walB", "lsnB", "flB", false, 0, 0, 3, 4⟩,
                    ⟨"C", "walC", "lsnC", "flC", false, 0, 0, 5, 6⟩])).1.registry
      = [(pgCreateLabels ⟨"A", "walA", "lsnA", "flA", false, 0, 0, 1, 2⟩, 1),
         (pgCreateLabels ⟨"B", "walB", "lsnB", "flB", false, 0, 0, 3, 4⟩, 3)] ∧
    myRemoveLabels ⟨"A", some 1, some 2, 10, 5⟩
      ≠ myCreateLabels ⟨"A", some 1, some 2, 10, 5⟩ ∧
    (my_update_basebackups
        ⟨[⟨"A", some 1, some 2, 10, 5⟩, ⟨"B", some 3, some 4, 11, 6⟩],
         [(myCreateLabels ⟨"A", some 1, some 2, 10, 5⟩, 2),
          (myCreateLabels ⟨"B", some 3, some 4, 11, 6⟩, 4)], false⟩
        (MyPoll.ok [⟨"B", some 3, some 4, 11, 6⟩, ⟨"C", some 7, some 8, 12, 7⟩])).registry
      = [(myCreateLabels ⟨"A", some 1, some 2, 10, 5⟩, 2),
         (myCreateLabels ⟨"B", some 3, some 4, 11, 6⟩, 4),
         (myCreateLabels ⟨"C", some 7, some 8, 12, 7⟩, 8)] := by
  refine ⟨by decide, by decide, by decide, by decide, by decide⟩

/-- C5 (code_bug evaluation): a poll-cycle error terminates the process.
When `wal-g wal-verify` exits non-zero, `update_wal_status` catches the
`CalledProcessError`, logs it, and then evaluates `res.stdout` with the
local `res` unassigned, raising `UnboundLocalError` (a `NameError`); the
`while True` main loop has no exception handler, so the process dies.  A
missing wal-g binary (`FileNotFoundError` in `update_basebackup`, which
catches only `CalledProcessError`) likewise propagates and terminates the
process. -/
theorem claim_C5_code_eval :
    pg_cycle ⟨[], [], false⟩ (PgPoll.ok []) WsPoll.calledProcessError
        (Except.ok ⟨"000000010000000000000001", 0⟩)
      = Except.error PyErr.nameError ∧
    pg_cycle ⟨[], [], false⟩ PgPoll.fileNotFound WsPoll.okEmpty
        (Except.ok ⟨"000000010000000000000001", 0⟩)
      = Except.error PyErr.fileNotFoundError := by
  refine ⟨rfl, rfl⟩

/-- C6: the status cache issues exactly one underlying query for two
calls within the one-second TTL window and both return the same memoized
snapshot; a call after TTL expiry issues a new query even though the
previous one succeeded, and when that re-query fails the error propagates
to the caller instead of a stale cached value (`cacheExpired` is,
definitionally, the condition under which `last_archive_status` issues
the underlying `_last_archive_status()` query). -/
theorem claim_C6_status_cache (s0 : ArchiveStatus) (t0 t1 t2 : Int)
    (q1 : Except PyErr ArchiveStatus) (e : PyErr)
    (h01 : t1 - t0 ≤ 1) (h02 : t2 - t0 > 1) :
    cacheExpired ⟨none, none⟩ t0 = true ∧
    last_archive_status ⟨none, none⟩ t0 (.ok s0) = .ok (some s0, ⟨some t0, some s0⟩) ∧
    cacheExpired ⟨some t0, some s0⟩ t1 = false ∧
    last_archive_status ⟨some t0, some s0⟩ t1 q1 = .ok (some s0, ⟨some t0, some s0⟩) ∧
    cacheExpired ⟨some t0, some s0⟩ t2 = true ∧
    last_archive_status ⟨some t0, some s0⟩ t2 (.error e) = .error e := by
  have hni : ¬ (t1 - t0 > 1) := not_lt.mpr h01
  have hc1 : cacheExpired ⟨some t0, some s0⟩ t1 = false := by
    simp [cacheExpired, hni]
  have hc2 : cacheExpired ⟨some t0, some s0⟩ t2 = true := by
    simp [cacheExpired, h02]
  refine ⟨rfl, rfl, hc1, ?_, hc2, ?_⟩
  · simp [last_archive_status, hc1]
  · simp [last_archive_status, hc2]

theorem claim_C6_status_cache_witness :
    cacheExpired ⟨none, none⟩ 0 = true ∧
    last_archive_status ⟨none, none⟩ 0 (.ok ⟨"w", 9⟩)
      = .ok (some ⟨"w", 9⟩, ⟨some 0, some ⟨"w", 9⟩⟩) ∧
    cacheExpired ⟨some 0, some ⟨"w", 9⟩⟩ 1 = false ∧
    last_archive_status ⟨some 0, some ⟨"w", 9⟩⟩ 1 (.ok ⟨"x", 8⟩)
      = .ok (some ⟨"w", 9⟩, ⟨some 0, some ⟨"w", 9⟩⟩) ∧
    cacheExpired ⟨some 0, some ⟨"w", 9⟩⟩ 3 = true ∧
    last_archive_status ⟨some 0, some ⟨"w", 9⟩⟩ 3 (.error .dbError)
      = .error .dbError :=
  claim_C6_status_cache ⟨"w", 9⟩ 0 1 3 (.ok ⟨"x", 8⟩) .dbError (by decide) (by decide)

/-- C3 (counterexample): the claim states that after a successful poll
the inventory equals the incoming records sorted by `start_time` with
`name` as tiebreak, installed by a single wholesale assignment even for
an empty snapshot.  Three concrete refutations on the PostgreSQL
exporter: the source sorts with `start_time` as the only key (Python's
stable sort keeps the arrival order of ties, here `"b"` before `"a"`);
an empty successful snapshot leaves the previous inventory in place
instead of installing `[]`; and a nonempty snapshot that deletes a
previously-known backup raises `ValueError` in the retraction loop
before `self.bbs = new_bbs` runs, so the old inventory survives there
too. -/
theorem claim_C3_counterexample :
    (pg_update_basebackup ⟨[], [], false⟩
        (PgPoll.ok [⟨"b", "w2", "l2", "f2", false, 0, 0, 5, 6⟩,
                    ⟨"a", "w1", "l1", "f1", false, 0, 0, 5, 6⟩])).1.bbs
      = [⟨"b", "w2", "l2", "f2", false, 0, 0, 5, 6⟩,
         ⟨"a", "w1", "l1", "f1", false, 0, 0, 5, 6⟩] ∧
    specSortInventory [⟨"b", "w2", "l2", "f2", false, 0, 0, 5, 6⟩,
                       ⟨"a", "w1", "l1", "f1", false, 0, 0, 5, 6⟩]
      = [⟨"a", "w1", "l1", "f1", false, 0, 0, 5, 6⟩,
         ⟨"b", "w2", "l2", "f2", false, 0, 0, 5, 6⟩] ∧
    ([⟨"b", "w2", "l2", "f2", false, 0, 0, 5, 6⟩,
      ⟨"a", "w1", "l1", "f1", false, 0, 0, 5, 6⟩] : List PgBB)
      ≠ [⟨"a", "w1", "l1", "f1", false, 0, 0, 5, 6⟩,
         ⟨"b", "w2", "l2", "f2", false, 0, 0, 5, 6⟩] ∧
    (pg_update_basebackup
        ⟨[⟨"x", "wx", "lx", "fx", false, 0, 0, 1, 2⟩],
         [(pgCreateLabels ⟨"x", "wx", "lx", "fx", false, 0, 0, 1, 2⟩, 1)], false⟩
        (PgPoll.ok [])).1.bbs
      = [⟨"x", "wx", "lx", "fx", false, 0, 0, 1, 2⟩] ∧
    ([⟨"x", "wx", "lx", "fx", false, 0, 0, 1, 2⟩] : List PgBB) ≠ [] ∧
    (pg_update_basebackup
        ⟨[⟨"x", "wx", "lx", "fx", false, 0, 0, 1, 2⟩],
         [(pgCreateLabels ⟨"x", "wx", "lx", "fx", false, 0, 0, 1, 2⟩, 1)], false⟩
        (PgPoll.ok [⟨"y", "wy", "ly", "fy", false, 0, 0, 3, 4⟩])).1.bbs
      = [⟨"x", "wx", "lx", "fx", false, 0, 0, 1, 2⟩] ∧
    (pg_update_basebackup
        ⟨[⟨"x", "wx", "lx", "fx", false, 0, 0, 1, 2⟩],
         [(pgCreateLabels ⟨"x", "wx", "lx", "fx", false, 0, 0, 1, 2⟩, 1)], false⟩
        (PgPoll.ok [⟨"y", "wy", "ly", "fy", false, 0, 0, 3, 4⟩])).2
      = some PyErr.valueError ∧
    ([⟨"x", "wx", "lx", "fx", false, 0, 0, 1, 2⟩] : List PgBB)
      ≠ List.insertionSort pgLe [⟨"y", "wy", "ly", "fy", false, 0, 0, 3, 4⟩] := by
  refine ⟨by decide, by decide, by decide, by decide, by decide, by decide, by decide,
    by decide⟩

/-- The retraction loop of `update_basebackup` does nothing (and raises
nothing) exactly when no previously-known backup is deleted: every old
record's `backup_name` still occurs among the incoming names. -/
theorem pgRemoveLoop_no_deletion (olds : List PgBB) (newNames : List String)
    (reg : Registry) (h : ∀ bb ∈ olds, bb.backup_name ∈ newNames) :
    pgRemoveLoop olds newNames reg = (reg, none) := by
  induction olds with
  | nil => rfl
  | cons bb rest ih =>
    have hbb : bb.backup_name ∈ newNames := h bb (List.mem_cons_self _ _)
    unfold pgRemoveLoop
    rw [if_pos hbb]
    exact ih (fun b hb => h b (List.mem_cons_of_mem _ hb))

/-- C3 (amended): after a successful poll the MySQL exporter installs, by
a single wholesale assignment and with the failure flag cleared, the
incoming records sorted ascending by `start_time` only (Python's stable
sort preserves the arrival order of ties; there is no `name` tiebreak),
including the empty snapshot, which yields the empty inventory; the
PostgreSQL exporter reaches its assignment only when the new sorted list
is nonempty and the poll deletes no previously-known backup — a required
retraction raises `ValueError` first (the label-count mismatch of C4),
leaving the previous inventory in place, as does an empty successful
snapshot (see the counterexample for both). -/
theorem claim_C3_amended :
    (∀ (st : MyState) (recs : List MyBB),
      (my_update_basebackups st (MyPoll.ok recs)).bbs = List.insertionSort myLe recs ∧
      (my_update_basebackups st (MyPoll.ok recs)).basebackup_exception = false ∧
      List.Sorted myLe (my_update_basebackups st (MyPoll.ok recs)).bbs) ∧
    (∀ (st : PgState) (recs : List PgBB),
      (∀ bb ∈ st.bbs, bb.backup_name ∈ recs.map (fun b => b.backup_name)) →
      recs ≠ [] →
      (pg_update_basebackup st (PgPoll.ok recs)).1.bbs = List.insertionSort pgLe recs ∧
      (pg_update_basebackup st (PgPoll.ok recs)).2 = none ∧
      List.Sorted pgLe (pg_update_basebackup st (PgPoll.ok recs)).1.bbs) := by
  constructor
  · intro st recs
    refine ⟨rfl, rfl, ?_⟩
    exact List.sorted_insertionSort myLe recs
  · intro st recs h hne
    have hsub : ∀ bb ∈ st.bbs,
        bb.backup_name ∈ (List.insertionSort pgLe recs).map (fun b => b.backup_name) := by
      intro bb hb
      exact ((List.perm_insertionSort pgLe recs).map
        (fun b => b.backup_name)).mem_iff.mpr (h bb hb)
    have hrm := pgRemoveLoop_no_deletion st.bbs
      ((List.insertionSort pgLe recs).map (fun b => b.backup_name)) st.registry hsub
    have hlen : ¬ (List.insertionSort pgLe recs).length = 0 := by
      rw [List.length_insertionSort]
      exact fun hc => hne (List.length_eq_zero.mp hc)
    have hred : pg_update_basebackup st (PgPoll.ok recs)
        = ({ bbs := List.insertionSort pgLe recs,
             registry := pgAddLoop (List.insertionSort pgLe recs)
               (st.bbs.map (fun bb => bb.backup_name)) st.registry,
             basebackup_exception := false }, none) := by
      unfold pg_update_basebackup
      simp only [hrm, if_neg hlen]
    rw [hred]
    exact ⟨rfl, rfl, List.sorted_insertionSort pgLe recs⟩

theorem claim_C3_amended_witness :
    (pg_update_basebackup
        ⟨[⟨"a", "w", "l", "f", false, 0, 0, 5, 6⟩],
         [(pgCreateLabels ⟨"a", "w", "l", "f", false, 0, 0, 5, 6⟩, 5)], false⟩
        (PgPoll.ok [⟨"a", "w", "l", "f", false, 0, 0, 5, 6⟩,
                    ⟨"b", "w2", "l2", "f2", false, 0, 0, 7, 8⟩])).1.bbs
      = List.insertionSort pgLe [⟨"a", "w", "l", "f", false, 0, 0, 5, 6⟩,
                                 ⟨"b", "w2", "l2", "f2", false, 0, 0, 7, 8⟩] ∧
    (pg_update_basebackup
        ⟨[⟨"a", "w", "l", "f", false, 0, 0, 5, 6⟩],
         [(pgCreateLabels ⟨"a", "w", "l", "f", false, 0, 0, 5, 6⟩, 5)], false⟩
        (PgPoll.ok [⟨"a", "w", "l", "f", false, 0, 0, 5, 6⟩,
                    ⟨"b", "w2", "l2", "f2", false, 0, 0, 7, 8⟩])).2 = none ∧
    List.Sorted pgLe (pg_update_basebackup
        ⟨[⟨"a", "w", "l", "f", false, 0, 0, 5, 6⟩],
         [(pgCreateLabels ⟨"a", "w", "l", "f", false, 0, 0, 5, 6⟩, 5)], false⟩
        (PgPoll.ok [⟨"a", "w", "l", "f", false, 0, 0, 5, 6⟩,
                    ⟨"b", "w2", "l2", "f2", false, 0, 0, 7, 8⟩])).1.bbs :=
  claim_C3_amended.2
    ⟨[⟨"a", "w", "l", "f", false, 0, 0, 5, 6⟩],
     [(pgCreateLabels ⟨"a", "w", "l", "f", false, 0, 0, 5, 6⟩, 5)], false⟩
    [⟨"a", "w", "l", "f", false, 0, 0, 5, 6⟩,
     ⟨"b", "w2", "l2", "f2", false, 0, 0, 7, 8⟩]
    (by decide) (by decide)

/-- C8 (counterexample): the claim states that when no candidate
field/format parses, the timestamp field is left null and neither the
record nor the rest of the batch is failed.  In the PostgreSQL exporter,
`parse_date` raises `ValueError` when both format attempts fail, and
`format_date` — applied by `list(map(format_date, ...))` inside a `try`
that catches only `CalledProcessError` — propagates it, failing the whole
batch.  (The MySQL normalizer, by contrast, does yield null without
failing.) -/
theorem claim_C8_counterexample :
    parse_date "garbage" "%Y-%m-%dT%H:%M:%S.%f" = .error .valueError ∧
    format_date ⟨"garbage", "garbage", "garbage", "%Y-%m-%dT%H:%M:%S.%f"⟩
      = .error .valueError ∧
    (parse_backup_dates ⟨some "garbage", none, none, none, none, none, none⟩).1 = none := by
  refine ⟨by decide, by decide, by decide⟩

/-- C8 (amended): the MySQL normalizer picks the first truthy source
field in a fixed preference order and parses it with the single format
selected by the presence of a fractional part, leaving the field null on
failure without failing the record or the batch (`parse_backup_dates` is
total); the PostgreSQL `parse_date` tries the given format and then the
format with `.%f` removed, returning the first successful parse, but
raises `ValueError` — failing the whole batch — when both fail. -/
theorem claim_C8_amended :
    (∀ (bb : RawMyBB) (s : String), bb.start_time = some s → s ≠ "" →
      (parse_backup_dates bb).1 = mysql_parse_ts (some s)) ∧
    (∀ bb : RawMyBB, bb.start_time = none →
      (parse_backup_dates bb).1
        = mysql_parse_ts (firstTruthy [bb.start_local_time, bb.time, bb.modify_time])) ∧
    (∀ (date fmt : String) (d : PyDateTime),
      strptimeModel date (pyReplace fmt "Z" "%z") = some d →
      parse_date date fmt = .ok d) ∧
    (∀ date fmt : String,
      strptimeModel date (pyReplace fmt "Z" "%z") = none →
      strptimeModel date (pyReplace (pyReplace fmt "Z" "%z") ".%f" "") = none →
      parse_date date fmt = .error .valueError) := by
  refine ⟨?_, ?_, ?_, ?_⟩
  · intro bb s hfield hs
    unfold parse_backup_dates firstTruthy
    rw [hfield]
    simp [List.findSome?_cons, hs]
  · intro bb hfield
    unfold parse_backup_dates firstTruthy
    rw [hfield]
    simp [List.findSome?_cons]
  · intro date fmt d h
    unfold parse_date
    simp only [h]
  · intro date fmt h1 h2
    unfold parse_date
    simp only [h1, h2]

theorem claim_C8_amended_witness :
    (parse_backup_dates
        ⟨some "2023-01-02T03:04:05", some "1999-01-01T00:00:00", none, none,
         none, none, none⟩).1
      = mysql_parse_ts (some "2023-01-02T03:04:05") ∧
    (parse_backup_dates
        ⟨none, none, some "2023-01-02T03:04:05", none, none, none, none⟩).1
      = mysql_parse_ts (firstTruthy [none, some "2023-01-02T03:04:05", none]) ∧
    parse_date "2023-01-02T03:04:05" "%Y-%m-%dT%H:%M:%S"
      = .ok ⟨2023, 1, 2, 3, 4, 5, 0⟩ ∧
    parse_date "still-garbage" "%Y-%m-%dT%H:%M:%S" = .error .valueError :=
  ⟨claim_C8_amended.1 _ "2023-01-02T03:04:05" rfl (by decide),
   claim_C8_amended.2.1 _ rfl,
   claim_C8_amended.2.2.1 "2023-01-02T03:04:05" "%Y-%m-%dT%H:%M:%S" _ (by decide),
   claim_C8_amended.2.2.2 "still-garbage" "%Y-%m-%dT%H:%M:%S" (by decide) (by decide)⟩

/-- C10 (counterexample): the claim states that the cleanup only deletes
files whose basename exactly matches `(mysql-bin|binlog).<digits>`, from
a directory forced to be absolute and distinct from the filesystem root.
Python's `$` also matches before one trailing newline, so the file
`"mysql-bin.1\n"` — whose basename does not exactly match the pattern —
is deleted; and the startup validation accepts `"/tmp/.."`, an absolute
path that resolves to the filesystem root. -/
theorem claim_C10_counterexample :
    cleanupRemoved [⟨"mysql-bin.1\n", some 0, true⟩] 512 true
      = [⟨"mysql-bin.1\n", some 0, true⟩] ∧
    cleanupPatExact "mysql-bin.1\n".toList = false ∧
    validate_tmp_binlog_dir "/tmp/.." = "/tmp/.." ∧
    posixResolvesToRoot "/tmp/.." = true := by
  refine ⟨by decide, by decide, by decide, by decide⟩

/-- C10 (amended): every file the enabled cleanup removes is a listed
entry of `tmp_binlog_dir` whose name matches the Python regex
`^(mysql-bin|binlog)\.\d+$` — the exact shape, or that shape followed by
one trailing newline — whose stat succeeded with size at most
`cleanup_max_size`, and whose removal the OS permitted; a disabled
cleanup removes nothing; and the validated `tmp_binlog_dir` always starts
with `/` and never right-strips to `''` or `'/'` (though, as the
counterexample shows, a path such as `/tmp/..` resolving to the root is
still accepted).  Per-entry errors are skipped and the block is wrapped
in a catch-all handler, so a cleanup error never aborts the poll cycle
(the model of the block is a total function). -/
theorem claim_C10_amended :
    (∀ (entries : List TmpEntry) (maxSize : Nat) (e : TmpEntry),
      e ∈ cleanupRemoved entries maxSize true →
      e ∈ entries ∧ cleanupPatMatch e.name.toList = true ∧ e.removable = true ∧
        ∃ sz, e.size = some sz ∧ sz ≤ maxSize) ∧
    (∀ (entries : List TmpEntry) (maxSize : Nat),
      cleanupRemoved entries maxSize false = []) ∧
    (∀ cfg : String, pyIsAbs (validate_tmp_binlog_dir cfg) = true ∧
      pyRstripSlash (validate_tmp_binlog_dir cfg) ≠ "" ∧
      pyRstripSlash (validate_tmp_binlog_dir cfg) ≠ "/") := by
  refine ⟨?_, ?_, ?_⟩
  · intro entries maxSize e he
    have he' : e ∈ entries.filter (cleanupDeletes maxSize) := by
      simpa [cleanupRemoved] using he
    rcases List.mem_filter.mp he' with ⟨hmem, hdel⟩
    unfold cleanupDeletes at hdel
    rw [Bool.and_eq_true] at hdel
    obtain ⟨_, hrest⟩ := hdel
    cases hsz : e.size with
    | none =>
      rw [hsz] at hrest
      simp at hrest
    | some sz =>
      rw [hsz] at hrest
      rw [Bool.and_eq_true, Bool.and_eq_true] at hrest
      obtain ⟨⟨hpat, hle⟩, hrem⟩ := hrest
      exact ⟨hmem, hpat, hrem, sz, rfl, of_decide_eq_true hle⟩
  · intro entries maxSize
    rfl
  · intro cfg
    unfold validate_tmp_binlog_dir
    by_cases habs : pyIsAbs cfg = true
    · simp only [habs, if_true]
      by_cases hr : pyRstripSlash cfg = "" ∨ pyRstripSlash cfg = "/"
      · simp only [hr, if_true]
        refine ⟨by decide, by decide, by decide⟩
      · simp only [hr, if_false]
        push_neg at hr
        exact ⟨habs, hr.1, hr.2⟩
    · simp only [Bool.not_eq_true] at habs
      simp only [habs, Bool.false_eq_true, if_false]
      have htmp : ¬ (pyRstripSlash "/tmp" = "" ∨ pyRstripSlash "/tmp" = "/") := by decide
      simp only [htmp, if_false]
      refine ⟨by decide, by decide, by decide⟩

theorem claim_C10_amended_witness :
    ((⟨"mysql-bin.7", some 0, true⟩ : TmpEntry) ∈ ([⟨"mysql-bin.7", some 0, true⟩] : List TmpEntry) ∧
      cleanupPatMatch (⟨"mysql-bin.7", some 0, true⟩ : TmpEntry).name.toList = true ∧
      (⟨"mysql-bin.7", some 0, true⟩ : TmpEntry).removable = true ∧
      ∃ sz, (⟨"mysql-bin.7", some 0, true⟩ : TmpEntry).size = some sz ∧ sz ≤ 512) ∧
    (pyIsAbs (validate_tmp_binlog_dir "/data") = true ∧
      pyRstripSlash (validate_tmp_binlog_dir "/data") ≠ "" ∧
      pyRstripSlash (validate_tmp_binlog_dir "/data") ≠ "/") :=
  ⟨claim_C10_amended.1 [⟨"mysql-bin.7", some 0, true⟩] 512 ⟨"mysql-bin.7", some 0, true⟩
      (by decide),
   claim_C10_amended.2.2 "/data"⟩
